import Mathlib

/-!
# Shallow embedding of the cryptodev-linux NCR key registry (src/ncr-key.c)

This file embeds the key-object registry of `src/ncr-key.c` in Lean 4:
key items, the per-session key list, handle allocation, lookup,
generate/import/export/info and the asymmetric stubs, together with the
external collaborators (the resource limiter, the algorithm catalog and
the data-buffer items) at their interfaces.

Conventions of the embedding:
- C integer return codes become `Int`: `0` for success, `-EINVAL`,
  `-ENOMEM`, ... for failure, exactly as the source returns them.
- Byte buffers that C stores as a fixed array plus a length field are
  modelled as the observable content: a `List Nat` holding the live
  bytes (the prefix of the array up to the length field) plus the
  length field itself, with `memcpy(dst, src, n)` becoming
  `List.take n src`.
- `get_random_bytes(buf, n)` is modelled by an oracle `rnd : Nat → Nat`
  giving the byte at each index; filling `n` bytes is
  `(List.range n).map rnd`, which always has length `n` just as
  `get_random_bytes` always writes exactly `n` bytes.
- In-place mutation of a looked-up item becomes replacement of the
  first list entry with the matching descriptor (`ncr_key_item_get`
  returns the first match, and the source mutates it through the
  returned pointer).
-/

namespace NcrKey

/-- Linux error number used by every failure path of src/ncr-key.c. -/
def EINVAL : Int := 22

/-- Linux error number returned when `kmalloc` fails in `ncr_key_init`. -/
def ENOMEM : Int := 12

/-- Modelled from the spec: `MAX_KEY_SIZE`, the bound on secret key
material length, is defined in a header outside src/ (the spec only
requires `material.length ≤ MAX_KEY_SIZE`). -/
def MAX_KEY_SIZE : Nat := 32

/-- Modelled from the spec: `MAX_KEY_ID_SIZE`, the bound on `key_id`
length, is defined in a header outside src/ (the spec only requires
`key_id.length ≤ MAX_KEY_ID_SIZE`). -/
def MAX_KEY_ID_SIZE : Nat := 20

/-- Bit in the `flags` bitset of a key item marking the key exportable. -/
def NCR_KEY_FLAG_EXPORTABLE : Nat := 1

/-- Bit in the `flags` bitset of a data item marking the buffer exportable. -/
def NCR_DATA_FLAG_EXPORTABLE : Nat := 1

/-- Key-type classification (`ncr_key_type_t`): only `secret` is
implemented; `invalid` is the zero value `memset` leaves behind. -/
inductive KeyType where
  | invalid
  | secret
  | public
  | priv
deriving DecidableEq, Repr

/-- Modelled from the spec: the algorithm identifiers (`ncr_algorithm_t`,
declared outside src/). The Algorithm Catalog of the spec classifies each
identifier as Secret/Public/Private, with unrecognized identifiers
classified so that the Secret check of generation fails; the upstream driver
has several symmetric-cipher identifiers that classify Secret, of which
`aes_cbc` is the `NCR_ALG_AES_CBC` the source names explicitly. -/
inductive Algorithm where
  | none_
  | aes_cbc
  | aes_ecb
  | des3_cbc
  | rsa
  | dsa
deriving DecidableEq, Repr

/-- The arbitrary algorithm tag `ncr_key_generate` stores
(`item->algorithm = /* arbitrary */ NCR_ALG_AES_CBC`). -/
def NCR_ALG_AES_CBC : Algorithm := Algorithm.aes_cbc

/-- Modelled from the spec: the Algorithm Catalog
(`ncr_algorithm_to_key_type`, defined outside src/), a pure function
mapping an algorithm identifier to a key-type classification; symmetric
ciphers classify Secret, asymmetric ones Public/Private, and the
unrecognized/none identifier classifies `invalid`, which fails
the Secret check of generation. -/
def ncr_algorithm_to_key_type : Algorithm → KeyType
  | Algorithm.none_ => KeyType.invalid
  | Algorithm.aes_cbc => KeyType.secret
  | Algorithm.aes_ecb => KeyType.secret
  | Algorithm.des3_cbc => KeyType.secret
  | Algorithm.rsa => KeyType.priv
  | Algorithm.dsa => KeyType.priv

/-- Embeds `struct key_item`: descriptor, classification, flags, algorithm tag,
key id (live bytes plus length field), secret key material (live bytes
plus length field), owner (`filp`) and reference count. -/
structure key_item where
  desc : Nat
  type : KeyType
  flags : Nat
  algorithm : Algorithm
  key_id : List Nat
  key_id_size : Nat
  secret_data : List Nat
  secret_size : Nat
  filp : Nat
  refcnt : Nat
deriving DecidableEq, Repr

/-- Embeds `struct data_item` at the interface export/import uses: live bytes,
length field, capacity (`max_data_size`) and flags. -/
structure data_item where
  desc : Nat
  data : List Nat
  data_size : Nat
  max_data_size : Nat
  flags : Nat
deriving DecidableEq, Repr

/-- Modelled from the spec: the per-owner counter of the Resource Limiter
(`ncr_limits_*` live outside src/): a count of live key items per
owner and a per-owner admission bound. -/
structure limits_st where
  count : Nat → Nat
  max_per_owner : Nat

/-- Modelled from the spec: `admit(owner, kind)`; increments the
per-owner counter when below the bound, otherwise fails without
incrementing. -/
def ncr_limits_add_and_check (st : limits_st) (filp : Nat) : Int × limits_st :=
  if st.count filp ≥ st.max_per_owner then (-EINVAL, st)
  else (0, { st with count := fun o => if o = filp then st.count o + 1 else st.count o })

/-- Modelled from the spec: `release(owner, kind)`; decrements the
per-owner counter. -/
def ncr_limits_remove (st : limits_st) (filp : Nat) : limits_st :=
  { st with count := fun o => if o = filp then st.count o - 1 else st.count o }

/-- Embeds `_ncr_key_get_new_desc`: `mx = 0`, fold `max` over the descriptors
in the list, return `mx + 1`. -/
def _ncr_key_get_new_desc (lst : List key_item) : Nat :=
  (lst.foldl (fun mx item => max mx item.desc) 0) + 1

/-- Embeds `ncr_key_item_get`: linear scan for the first item with the given
descriptor (`none` models the `NULL` return). The refcount increment
and the matching `_ncr_key_item_put` of every operation cancel and are
tracked only where a claim needs them. -/
def ncr_key_item_get (lst : List key_item) (desc : Nat) : Option key_item :=
  lst.find? (fun item => item.desc = desc)

/-- Embeds `_ncr_key_item_put`: decrement the reference count; at zero,
release the limiter slot of the owner and free the item (`none`). -/
def _ncr_key_item_put (limits : limits_st) (item : key_item) : limits_st × Option key_item :=
  if item.refcnt - 1 = 0 then (ncr_limits_remove limits item.filp, none)
  else (limits, some { item with refcnt := item.refcnt - 1 })

/-- Replace the first item with the given descriptor: the effect, on
the list, of the source mutating the item `ncr_key_item_get` found
through the returned pointer. -/
def set_item : List key_item → Nat → key_item → List key_item
  | [], _, _ => []
  | i :: is, d, v => if i.desc = d then v :: is else i :: set_item is d v

/-- State shared by `ncr_key_init`: the limiter and the key list. -/
structure registry_st where
  limits : limits_st
  lst : List key_item

/-- The `kmalloc`ed and `memset`-zeroed key item `ncr_key_init`
builds: fresh descriptor, zero classification/flags/algorithm/sizes,
owner `filp`, `refcnt = 1`. -/
def new_key_item (filp : Nat) (lst : List key_item) : key_item :=
  { desc := _ncr_key_get_new_desc lst, type := KeyType.invalid, flags := 0,
    algorithm := Algorithm.none_, key_id := [], key_id_size := 0,
    secret_data := [], secret_size := 0, filp := filp, refcnt := 1 }

/-- Embeds `ncr_key_init`: consult the limiter; `kmalloc` a zeroed item
(`kmalloc_ok` models whether the allocation succeeds — on failure the
source returns `-ENOMEM` without releasing the limiter slot it just
took); assign `desc = _ncr_key_get_new_desc`, `refcnt = 1`,
`filp = filp`; `list_add` prepends. Returns the error code, the new
state, and the descriptor written back to the caller. -/
def ncr_key_init (filp : Nat) (kmalloc_ok : Bool) (st : registry_st) :
    Int × registry_st × Option Nat :=
  let r := ncr_limits_add_and_check st.limits filp
  if r.1 < 0 then (r.1, st, none)
  else if kmalloc_ok = false then (-ENOMEM, { st with limits := r.2 }, none)
  else
    let key := new_key_item filp st.lst
    (0, { limits := r.2, lst := key :: st.lst }, some key.desc)

/-- Iterated allocation: `n` successive `ncr_key_init` calls with
working memory allocation, as in the N-allocations test in the spec. -/
def alloc_n (filp : Nat) : Nat → registry_st → registry_st
  | 0, st => st
  | n + 1, st => alloc_n filp n (ncr_key_init filp true st).2.1

/-- Embeds `ncr_key_deinit`: unlink the first item with the descriptor, if
any, and put the reference held by the registry; returns 0 in either case. -/
def ncr_key_deinit (limits : limits_st) (lst : List key_item) (desc : Nat) :
    Int × limits_st × List key_item :=
  match lst.find? (fun i => i.desc = desc) with
  | none => (0, limits, lst)
  | some item =>
    (0, (_ncr_key_item_put limits item).1, lst.eraseP (fun i => i.desc = desc))

/-- The request structure `struct ncr_key_data_st` as import/export use
it: key and data descriptors, and for import the classification,
algorithm, flags and key id to store. -/
structure ncr_key_data_st where
  key : Nat
  data : Nat
  type : KeyType
  algorithm : Algorithm
  flags : Nat
  key_id : List Nat
  key_id_size : Nat
deriving DecidableEq, Repr

/-- The body of `ncr_key_export` on the looked-up key and data items:
for a Secret key, fail if the material exceeds the buffer capacity,
else zero the buffer flags, set the exportable bit iff the key has it,
copy the material and set the length; any other classification fails. -/
def key_export_body (item : key_item) (ditem : data_item) : Int × data_item :=
  match item.type with
  | KeyType.secret =>
    if item.secret_size > ditem.max_data_size then (-EINVAL, ditem)
    else
      let flags0 : Nat := 0
      let flags1 : Nat :=
        if item.flags &&& NCR_KEY_FLAG_EXPORTABLE ≠ 0
        then flags0 ||| NCR_DATA_FLAG_EXPORTABLE else flags0
      (0, { ditem with flags := flags1, data := item.secret_data.take item.secret_size, data_size := item.secret_size })
  | _ => (-EINVAL, ditem)

/-- Embeds `ncr_key_export` at the registry level: look up the key and the
data item, run the body, and store the updated data item. -/
def ncr_key_export (data_lst : List data_item) (key_lst : List key_item)
    (arg : ncr_key_data_st) : Int × List data_item :=
  match ncr_key_item_get key_lst arg.key with
  | none => (-EINVAL, data_lst)
  | some item =>
    match data_lst.find? (fun d => d.desc = arg.data) with
    | none => (-EINVAL, data_lst)
    | some ditem =>
      let r := key_export_body item ditem
      (r.1, data_lst.map (fun d => if d.desc = arg.data then r.2 else d))

/-- The body of `ncr_key_import` on the looked-up key and data items:
store classification, algorithm and flags from the request, OR in the
exportable bit when the source buffer is exportable, then for a Secret
classification validate and store the key id, validate the buffer
length and copy the bytes into the material; any other classification
fails. The failing paths return the item as far as it was mutated. -/
def key_import_body (item : key_item) (ditem : data_item) (data : ncr_key_data_st) :
    Int × key_item :=
  let flags1 :=
    if ditem.flags &&& NCR_DATA_FLAG_EXPORTABLE ≠ 0
    then data.flags ||| NCR_KEY_FLAG_EXPORTABLE else data.flags
  let item2 := { item with type := data.type, algorithm := data.algorithm, flags := flags1 }
  -- the source switches on `item->type`, which at this point it has
  -- just set to the classification from the request `data.type`
  match data.type with
  | KeyType.secret =>
    if data.key_id_size > MAX_KEY_ID_SIZE then (-EINVAL, item2)
    else
      let item3 :=
        if data.key_id_size > 0
        then { item2 with key_id_size := data.key_id_size, key_id := data.key_id.take data.key_id_size }
        else { item2 with key_id_size := data.key_id_size }
      if ditem.data_size > MAX_KEY_SIZE then (-EINVAL, item3)
      else (0, { item3 with secret_data := ditem.data.take ditem.data_size, secret_size := ditem.data_size })
  | _ => (-EINVAL, item2)

/-- Embeds `ncr_key_import` at the registry level: look up the key and the
data item, run the body, and store the (possibly partially) mutated
key item back — the source mutates it in place, so failed imports also
leave their partial writes behind. -/
def ncr_key_import (data_lst : List data_item) (key_lst : List key_item)
    (arg : ncr_key_data_st) : Int × List key_item :=
  match ncr_key_item_get key_lst arg.key with
  | none => (-EINVAL, key_lst)
  | some item =>
    match data_lst.find? (fun d => d.desc = arg.data) with
    | none => (-EINVAL, key_lst)
    | some ditem =>
      let r := key_import_body item ditem arg
      (r.1, set_item key_lst arg.key r.2)

/-- The request structure `struct ncr_key_generate_st` as the source
reads it: descriptor, algorithm, key flags and requested bits. -/
structure ncr_key_generate_st where
  desc : Nat
  algorithm : Algorithm
  keyflags : Nat
  bits : Nat
deriving DecidableEq, Repr

/-- The body of `ncr_key_generate` on the looked-up item: derive the
classification from the algorithm (failing unless Secret), store the
key flags and the arbitrary `NCR_ALG_AES_CBC` algorithm tag, validate
the requested bits (byte aligned and at most `MAX_KEY_SIZE` bytes),
then fill the material with `bits/8` random bytes and the key id with
5 random bytes. The failing paths return the item as far as it was
mutated. `rndk` and `rndi` are the random-byte oracles for the two
`get_random_bytes` calls. -/
def key_generate_body (item : key_item) (gen : ncr_key_generate_st)
    (rndk : Nat → Nat) (rndi : Nat → Nat) : Int × key_item :=
  let item1 := { item with type := ncr_algorithm_to_key_type gen.algorithm }
  if item1.type ≠ KeyType.secret then (-EINVAL, item1)
  else
    let item2 := { item1 with flags := gen.keyflags, algorithm := NCR_ALG_AES_CBC }
    let size := gen.bits / 8
    if gen.bits % 8 ≠ 0 ∨ size > MAX_KEY_SIZE then (-EINVAL, item2)
    else
      let item3 := { item2 with secret_data := (List.range size).map rndk, secret_size := size }
      (0, { item3 with key_id_size := 5, key_id := (List.range 5).map rndi })

/-- Embeds `ncr_key_generate` at the registry level: look up the item, run the
body, and store the (possibly partially) mutated item back. -/
def ncr_key_generate (lst : List key_item) (gen : ncr_key_generate_st)
    (rndk : Nat → Nat) (rndi : Nat → Nat) : Int × List key_item :=
  match ncr_key_item_get lst gen.desc with
  | none => (-EINVAL, lst)
  | some item =>
    let r := key_generate_body item gen rndk rndi
    (r.1, set_item lst gen.desc r.2)

/-- The response structure `struct ncr_key_info_st` as the source
fills it: flags, classification and algorithm tag. -/
structure ncr_key_info_st where
  flags : Nat
  type : KeyType
  algorithm : Algorithm
deriving DecidableEq, Repr

/-- Embeds `ncr_key_info`: look up the item and read out flags, classification
and algorithm (`none` models the `-EINVAL` return on unknown handles);
no mutation. -/
def ncr_key_info (lst : List key_item) (desc : Nat) : Option ncr_key_info_st :=
  match ncr_key_item_get lst desc with
  | none => none
  | some item => some ⟨item.flags, item.type, item.algorithm⟩

/-- Embeds `ncr_key_generate_pair`: stub, unconditionally `return -EINVAL;`
with no access to the list. -/
def ncr_key_generate_pair (lst : List key_item) (_arg : ncr_key_generate_st) :
    Int × List key_item :=
  (-EINVAL, lst)

/-- Embeds `ncr_key_derive`: stub, unconditionally `return -EINVAL;` with no
access to the list. -/
def ncr_key_derive (lst : List key_item) (_arg : ncr_key_data_st) :
    Int × List key_item :=
  (-EINVAL, lst)

/-- Embeds `ncr_key_get_public`: stub, unconditionally `return -EINVAL;` with
no access to the list. -/
def ncr_key_get_public (lst : List key_item) (_arg : ncr_key_data_st) :
    Int × List key_item :=
  (-EINVAL, lst)

/-! ## Sample concrete values used by witnesses and counterexamples -/

/-- A freshly allocated (zeroed) key item with descriptor 1. -/
def sampleKey : key_item :=
  { desc := 1, type := KeyType.invalid, flags := 0, algorithm := Algorithm.none_,
    key_id := [], key_id_size := 0, secret_data := [], secret_size := 0,
    filp := 0, refcnt := 1 }

/-- A Secret, exportable key item holding four bytes of material. -/
def sampleSecretKey : key_item :=
  { sampleKey with type := KeyType.secret, flags := NCR_KEY_FLAG_EXPORTABLE, algorithm := Algorithm.aes_cbc, secret_data := [1, 2, 3, 4], secret_size := 4 }

/-- A data item with two live bytes and capacity 16. -/
def sampleDitem : data_item :=
  { desc := 7, data := [9, 9], data_size := 2, max_data_size := 16, flags := 0 }

/-- A registry holding one key item, whose owner 0 has no live
allocations counted and a limit of 5. -/
def sampleRegistry : registry_st :=
  { limits := { count := fun _ => 0, max_per_owner := 5 }, lst := [sampleSecretKey] }

/-! ## Theorems -/

/-- C4: for a Secret key item whose material fits the destination
buffer, export succeeds, and the flags of the destination are fully
overwritten: the resulting exportable bit is set iff the
Exportable flag of the key is set, whatever flags the destination held
before. -/
theorem export_overwrites_exportable_flag (item : key_item) (ditem : data_item)
    (hsec : item.type = KeyType.secret)
    (hfit : item.secret_size ≤ ditem.max_data_size) :
    (key_export_body item ditem).1 = 0 ∧
    (key_export_body item ditem).2.flags =
      (if item.flags &&& NCR_KEY_FLAG_EXPORTABLE ≠ 0 then NCR_DATA_FLAG_EXPORTABLE else 0) ∧
    (((key_export_body item ditem).2.flags &&& NCR_DATA_FLAG_EXPORTABLE ≠ 0) ↔
      item.flags &&& NCR_KEY_FLAG_EXPORTABLE ≠ 0) := by
  have hnot : ¬ item.secret_size > ditem.max_data_size := not_lt.mpr hfit
  unfold key_export_body
  rw [hsec]
  simp only [hnot, if_false]
  by_cases h : item.flags &&& NCR_KEY_FLAG_EXPORTABLE ≠ 0
  · simp [h, NCR_DATA_FLAG_EXPORTABLE]
  · simp [h, NCR_DATA_FLAG_EXPORTABLE]

/-- Witness for C4 at a concrete exportable Secret key and buffer. -/
theorem export_overwrites_exportable_flag_witness :
    (key_export_body sampleSecretKey sampleDitem).1 = 0 ∧
    (key_export_body sampleSecretKey sampleDitem).2.flags =
      (if sampleSecretKey.flags &&& NCR_KEY_FLAG_EXPORTABLE ≠ 0 then NCR_DATA_FLAG_EXPORTABLE else 0) ∧
    (((key_export_body sampleSecretKey sampleDitem).2.flags &&& NCR_DATA_FLAG_EXPORTABLE ≠ 0) ↔
      sampleSecretKey.flags &&& NCR_KEY_FLAG_EXPORTABLE ≠ 0) :=
  export_overwrites_exportable_flag sampleSecretKey sampleDitem (by decide) (by decide)

/-- C7: export of a Secret key fails with `-EINVAL` when the material
exceeds the buffer capacity (leaving the buffer unchanged); when the
material fits, it succeeds and the bytes and length of the buffer equal the
material of the key; export of a Public or Private key always fails with
`-EINVAL`. -/
theorem export_fail_and_success_cases (item : key_item) (ditem : data_item)
    (hlen : item.secret_data.length = item.secret_size) :
    (item.type = KeyType.secret → ditem.max_data_size < item.secret_size →
      key_export_body item ditem = (-EINVAL, ditem)) ∧
    (item.type = KeyType.secret → item.secret_size ≤ ditem.max_data_size →
      (key_export_body item ditem).1 = 0 ∧
      (key_export_body item ditem).2.data = item.secret_data ∧
      (key_export_body item ditem).2.data_size = item.secret_size) ∧
    ((item.type = KeyType.public ∨ item.type = KeyType.priv) →
      key_export_body item ditem = (-EINVAL, ditem)) := by
  refine ⟨?_, ?_, ?_⟩
  · intro hsec hbig
    unfold key_export_body
    rw [hsec]
    simp [hbig]
  · intro hsec hfit
    have hnot : ¬ item.secret_size > ditem.max_data_size := not_lt.mpr hfit
    have htake : item.secret_data.take item.secret_size = item.secret_data := by
      rw [← hlen]
      exact List.take_length item.secret_data
    unfold key_export_body
    rw [hsec]
    simp [hnot, htake]
  · intro hpub
    unfold key_export_body
    rcases hpub with h | h <;> rw [h]

/-- Witness for C7 at concrete Secret/Public keys and buffers of
capacity 16 and 2. -/
theorem export_fail_and_success_cases_witness :
    ((key_export_body sampleSecretKey sampleDitem).1 = 0 ∧
      (key_export_body sampleSecretKey sampleDitem).2.data = sampleSecretKey.secret_data ∧
      (key_export_body sampleSecretKey sampleDitem).2.data_size = sampleSecretKey.secret_size) ∧
    key_export_body sampleSecretKey { sampleDitem with max_data_size := 2 } =
      (-EINVAL, { sampleDitem with max_data_size := 2 }) ∧
    key_export_body { sampleSecretKey with type := KeyType.public } sampleDitem =
      (-EINVAL, sampleDitem) :=
  ⟨(export_fail_and_success_cases sampleSecretKey sampleDitem (by decide)).2.1
      (by decide) (by decide),
   (export_fail_and_success_cases sampleSecretKey
      { sampleDitem with max_data_size := 2 } (by decide)).1 (by decide) (by decide),
   (export_fail_and_success_cases { sampleSecretKey with type := KeyType.public }
      sampleDitem (by decide)).2.2 (Or.inl (by decide))⟩

/-- C6 counterexample: `ncr_key_generate_pair` fails with `-EINVAL`,
the very code returned for InvalidArgument failures (here: a failing
bit-alignment validation in generate), so the failure code of the stubs is
not distinct from InvalidArgument. -/
theorem stubs_share_einval_with_invalid_argument :
    (ncr_key_generate_pair [sampleSecretKey]
      { desc := 1, algorithm := Algorithm.rsa, keyflags := 0, bits := 128 }).1 = -EINVAL ∧
    (key_generate_body sampleSecretKey
      { desc := 1, algorithm := Algorithm.aes_cbc, keyflags := 0, bits := 255 }
      (fun _ => 0) (fun _ => 0)).1 = -EINVAL := by
  constructor
  · rfl
  · decide

/-- C6 amended: `ncr_key_generate_pair`, `ncr_key_derive` and
`ncr_key_get_public` fail on every input, returning `-EINVAL` — the
same code used for InvalidArgument, not a distinct NotImplemented
code — and perform no mutation. -/
theorem stubs_always_fail_without_mutation (lst : List key_item)
    (g : ncr_key_generate_st) (d e : ncr_key_data_st) :
    ncr_key_generate_pair lst g = (-EINVAL, lst) ∧
    ncr_key_derive lst d = (-EINVAL, lst) ∧
    ncr_key_get_public lst e = (-EINVAL, lst) :=
  ⟨rfl, rfl, rfl⟩

/-- Computation of `key_generate_body` on its success path: a
Secret-classifying algorithm and valid requested bits yield 0 and the
fully populated item. -/
theorem key_generate_body_success_eq (item : key_item) (gen : ncr_key_generate_st)
    (rndk rndi : Nat → Nat)
    (hsec : ncr_algorithm_to_key_type gen.algorithm = KeyType.secret)
    (hal : gen.bits % 8 = 0) (hmax : gen.bits / 8 ≤ MAX_KEY_SIZE) :
    key_generate_body item gen rndk rndi =
      (0, { item with type := KeyType.secret, flags := gen.keyflags, algorithm := NCR_ALG_AES_CBC, secret_data := (List.range (gen.bits / 8)).map rndk, secret_size := gen.bits / 8, key_id := (List.range 5).map rndi, key_id_size := 5 }) := by
  have h2 : ¬ (gen.bits % 8 ≠ 0 ∨ gen.bits / 8 > MAX_KEY_SIZE) := by
    push_neg
    exact ⟨hal, hmax⟩
  unfold key_generate_body
  rw [hsec]
  simp [h2]

/-- Computation of `key_generate_body` on the path where the
requested-bits validation fails while the algorithm classifies
Secret. -/
theorem key_generate_body_bits_failure_eq (item : key_item) (gen : ncr_key_generate_st)
    (rndk rndi : Nat → Nat)
    (hsec : ncr_algorithm_to_key_type gen.algorithm = KeyType.secret)
    (hbad : gen.bits % 8 ≠ 0 ∨ gen.bits / 8 > MAX_KEY_SIZE) :
    key_generate_body item gen rndk rndi =
      (-EINVAL, { item with type := KeyType.secret, flags := gen.keyflags, algorithm := NCR_ALG_AES_CBC }) := by
  unfold key_generate_body
  rw [hsec]
  simp [hbad]

/-- C10: when generate fails its requested-bits validation while the
algorithm classifies Secret, the material bytes, material length, key id and key id
length of the item keep their prior values, while
classification, flags and algorithm have already been overwritten by
the failing call. -/
theorem generate_bits_failure_frame (item : key_item) (gen : ncr_key_generate_st)
    (rndk rndi : Nat → Nat)
    (hsec : ncr_algorithm_to_key_type gen.algorithm = KeyType.secret)
    (hbad : gen.bits % 8 ≠ 0 ∨ gen.bits / 8 > MAX_KEY_SIZE) :
    key_generate_body item gen rndk rndi =
      (-EINVAL, { item with type := KeyType.secret, flags := gen.keyflags, algorithm := NCR_ALG_AES_CBC }) :=
  key_generate_body_bits_failure_eq item gen rndk rndi hsec hbad

/-- Witness for C10 at a concrete item and an unaligned 255-bit
request. -/
theorem generate_bits_failure_frame_witness :
    key_generate_body sampleSecretKey
      { desc := 1, algorithm := Algorithm.aes_ecb, keyflags := 3, bits := 255 }
      (fun _ => 5) (fun _ => 6) =
      (-EINVAL, { sampleSecretKey with type := KeyType.secret, flags := 3, algorithm := NCR_ALG_AES_CBC }) :=
  generate_bits_failure_frame sampleSecretKey
    { desc := 1, algorithm := Algorithm.aes_ecb, keyflags := 3, bits := 255 }
    (fun _ => 5) (fun _ => 6) (by decide) (Or.inl (by decide))

/-- C8 counterexample: a live Secret-classified item (descriptor 1)
and a generate request with valid bits (128: byte-aligned and within
bounds) fails with `-EINVAL` because the catalog classification of the
algorithm, not the classification of the item, is what is checked. -/
theorem generate_valid_bits_on_secret_item_fails :
    sampleSecretKey.type = KeyType.secret ∧
    (128 % 8 = 0 ∧ 128 / 8 ≤ MAX_KEY_SIZE) ∧
    (ncr_key_generate [sampleSecretKey]
      { desc := 1, algorithm := Algorithm.none_, keyflags := 0, bits := 128 }
      (fun _ => 0) (fun _ => 0)).1 = -EINVAL := by decide

/-- C8 amended: generate fails with `-EINVAL` whenever the requested
bits are not byte-aligned or exceed `8 * MAX_KEY_SIZE`; with valid
bits and an algorithm the catalog classifies Secret, it succeeds and
sets the material to a byte sequence of length `bits / 8`. -/
theorem generate_bits_validation (item : key_item) (gen : ncr_key_generate_st)
    (rndk rndi : Nat → Nat) :
    ((gen.bits % 8 ≠ 0 ∨ gen.bits / 8 > MAX_KEY_SIZE) →
      (key_generate_body item gen rndk rndi).1 = -EINVAL) ∧
    (gen.bits % 8 = 0 → gen.bits / 8 ≤ MAX_KEY_SIZE →
      ncr_algorithm_to_key_type gen.algorithm = KeyType.secret →
      (key_generate_body item gen rndk rndi).1 = 0 ∧
      (key_generate_body item gen rndk rndi).2.secret_size = gen.bits / 8 ∧
      (key_generate_body item gen rndk rndi).2.secret_data.length = gen.bits / 8) := by
  constructor
  · intro hbad
    by_cases hsec : ncr_algorithm_to_key_type gen.algorithm = KeyType.secret
    · rw [key_generate_body_bits_failure_eq item gen rndk rndi hsec hbad]
    · unfold key_generate_body
      simp [hsec]
  · intro hal hmax hsec
    rw [key_generate_body_success_eq item gen rndk rndi hsec hal hmax]
    simp

/-- Witness for the amended C8 claim: 255 bits fail, 128 bits succeed
with 16 bytes of material. -/
theorem generate_bits_validation_witness :
    (key_generate_body sampleKey
      { desc := 1, algorithm := Algorithm.aes_cbc, keyflags := 0, bits := 255 }
      (fun _ => 0) (fun _ => 0)).1 = -EINVAL ∧
    (key_generate_body sampleKey
      { desc := 1, algorithm := Algorithm.aes_cbc, keyflags := 0, bits := 128 }
      (fun _ => 0) (fun _ => 0)).1 = 0 ∧
    (key_generate_body sampleKey
      { desc := 1, algorithm := Algorithm.aes_cbc, keyflags := 0, bits := 128 }
      (fun _ => 0) (fun _ => 0)).2.secret_size = 128 / 8 :=
  ⟨(generate_bits_validation sampleKey
      { desc := 1, algorithm := Algorithm.aes_cbc, keyflags := 0, bits := 255 }
      (fun _ => 0) (fun _ => 0)).1 (Or.inl (by decide)),
   ((generate_bits_validation sampleKey
      { desc := 1, algorithm := Algorithm.aes_cbc, keyflags := 0, bits := 128 }
      (fun _ => 0) (fun _ => 0)).2 (by decide) (by decide) (by decide)).1,
   ((generate_bits_validation sampleKey
      { desc := 1, algorithm := Algorithm.aes_cbc, keyflags := 0, bits := 128 }
      (fun _ => 0) (fun _ => 0)).2 (by decide) (by decide) (by decide)).2.1⟩

/-- C2 counterexample: an import that fails its classification check
(returning `-EINVAL`) has nevertheless overwritten the classification
of the key item: a Public-classified request on a previously Secret
item fails yet leaves the classification of the item Public. -/
theorem failed_import_overwrites_classification :
    (key_import_body sampleSecretKey sampleDitem
      { key := 1, data := 7, type := KeyType.public, algorithm := Algorithm.rsa, flags := 0, key_id := [], key_id_size := 0 }).1 = -EINVAL ∧
    (key_import_body sampleSecretKey sampleDitem
      { key := 1, data := 7, type := KeyType.public, algorithm := Algorithm.rsa, flags := 0, key_id := [], key_id_size := 0 }).2.type = KeyType.public ∧
    sampleSecretKey.type = KeyType.secret := by decide

/-- C2 amended: a generate or import call that fails returns with the
material bytes of the key item and material length unchanged, and a failing
generate also leaves the key id and its length unchanged; the classification, algorithm
and flags of the item, however, may already have been
overwritten by the failing call. -/
theorem failed_generate_import_material_frame (item : key_item) (ditem : data_item)
    (gen : ncr_key_generate_st) (data : ncr_key_data_st) (rndk rndi : Nat → Nat) :
    ((key_generate_body item gen rndk rndi).1 ≠ 0 →
      (key_generate_body item gen rndk rndi).2.secret_data = item.secret_data ∧
      (key_generate_body item gen rndk rndi).2.secret_size = item.secret_size ∧
      (key_generate_body item gen rndk rndi).2.key_id = item.key_id ∧
      (key_generate_body item gen rndk rndi).2.key_id_size = item.key_id_size) ∧
    ((key_import_body item ditem data).1 ≠ 0 →
      (key_import_body item ditem data).2.secret_data = item.secret_data ∧
      (key_import_body item ditem data).2.secret_size = item.secret_size) := by
  constructor
  · intro hfail
    unfold key_generate_body at hfail ⊢
    by_cases h1 : ncr_algorithm_to_key_type gen.algorithm = KeyType.secret
    · simp only [h1, ne_eq, not_true_eq_false, if_false] at hfail ⊢
      by_cases h2 : gen.bits % 8 ≠ 0 ∨ gen.bits / 8 > MAX_KEY_SIZE
      · simp [h2]
      · simp [h2] at hfail
    · simp [h1]
  · intro hfail
    unfold key_import_body at hfail ⊢
    obtain ⟨k, dd, ty, alg, fl, kid, kis⟩ := data
    cases ty
    case secret =>
      by_cases hkid : kis > MAX_KEY_ID_SIZE
      · simp [hkid]
      · by_cases hds : ditem.data_size > MAX_KEY_SIZE
        · by_cases hksz : kis > 0 <;> simp [hkid, hds, hksz]
        · simp [hkid, hds] at hfail
    all_goals exact ⟨rfl, rfl⟩

/-- Witness for the amended C2 claim at a concrete failing generate
(255 bits) and a concrete failing import (Public classification). -/
theorem failed_generate_import_material_frame_witness :
    ((key_generate_body sampleSecretKey
        { desc := 1, algorithm := Algorithm.aes_cbc, keyflags := 0, bits := 255 }
        (fun _ => 0) (fun _ => 0)).2.secret_data = sampleSecretKey.secret_data ∧
      (key_generate_body sampleSecretKey
        { desc := 1, algorithm := Algorithm.aes_cbc, keyflags := 0, bits := 255 }
        (fun _ => 0) (fun _ => 0)).2.secret_size = sampleSecretKey.secret_size ∧
      (key_generate_body sampleSecretKey
        { desc := 1, algorithm := Algorithm.aes_cbc, keyflags := 0, bits := 255 }
        (fun _ => 0) (fun _ => 0)).2.key_id = sampleSecretKey.key_id ∧
      (key_generate_body sampleSecretKey
        { desc := 1, algorithm := Algorithm.aes_cbc, keyflags := 0, bits := 255 }
        (fun _ => 0) (fun _ => 0)).2.key_id_size = sampleSecretKey.key_id_size) ∧
    ((key_import_body sampleSecretKey sampleDitem
        { key := 1, data := 7, type := KeyType.public, algorithm := Algorithm.rsa, flags := 0, key_id := [], key_id_size := 0 }).2.secret_data = sampleSecretKey.secret_data ∧
      (key_import_body sampleSecretKey sampleDitem
        { key := 1, data := 7, type := KeyType.public, algorithm := Algorithm.rsa, flags := 0, key_id := [], key_id_size := 0 }).2.secret_size = sampleSecretKey.secret_size) :=
  ⟨(failed_generate_import_material_frame sampleSecretKey sampleDitem
      { desc := 1, algorithm := Algorithm.aes_cbc, keyflags := 0, bits := 255 }
      { key := 1, data := 7, type := KeyType.public, algorithm := Algorithm.rsa, flags := 0, key_id := [], key_id_size := 0 }
      (fun _ => 0) (fun _ => 0)).1 (by decide),
   (failed_generate_import_material_frame sampleSecretKey sampleDitem
      { desc := 1, algorithm := Algorithm.aes_cbc, keyflags := 0, bits := 255 }
      { key := 1, data := 7, type := KeyType.public, algorithm := Algorithm.rsa, flags := 0, key_id := [], key_id_size := 0 }
      (fun _ => 0) (fun _ => 0)).2 (by decide)⟩

/-- Computation of `key_export_body` on its success path for a Secret
key whose material fits the destination buffer. -/
theorem key_export_body_secret_success_eq (item : key_item) (ditem : data_item)
    (hsec : item.type = KeyType.secret)
    (hfit : item.secret_size ≤ ditem.max_data_size) :
    key_export_body item ditem =
      (0, { ditem with flags := (if item.flags &&& NCR_KEY_FLAG_EXPORTABLE ≠ 0 then NCR_DATA_FLAG_EXPORTABLE else 0), data := item.secret_data.take item.secret_size, data_size := item.secret_size }) := by
  have hnot : ¬ item.secret_size > ditem.max_data_size := not_lt.mpr hfit
  unfold key_export_body
  rw [hsec]
  by_cases h : item.flags &&& NCR_KEY_FLAG_EXPORTABLE ≠ 0 <;>
    simp [hnot, h, Nat.zero_or]

/-- Computation of `key_import_body` on its success path for a Secret
classification with valid key-id and buffer sizes. -/
theorem key_import_body_secret_success (item : key_item) (ditem : data_item)
    (data : ncr_key_data_st)
    (htype : data.type = KeyType.secret)
    (hkid : data.key_id_size ≤ MAX_KEY_ID_SIZE)
    (hlen : ditem.data_size ≤ MAX_KEY_SIZE) :
    (key_import_body item ditem data).1 = 0 ∧
    (key_import_body item ditem data).2.type = KeyType.secret ∧
    (key_import_body item ditem data).2.secret_data = ditem.data.take ditem.data_size ∧
    (key_import_body item ditem data).2.secret_size = ditem.data_size := by
  have hk : ¬ data.key_id_size > MAX_KEY_ID_SIZE := not_lt.mpr hkid
  have hd : ¬ ditem.data_size > MAX_KEY_SIZE := not_lt.mpr hlen
  unfold key_import_body
  rw [htype]
  by_cases hksz : data.key_id_size > 0 <;> simp [hk, hd, hksz, htype]

/-- C5: importing a byte sequence B of length at most `MAX_KEY_SIZE`
into a key item under a Secret classification succeeds, and a
subsequent export into a buffer of capacity at least `length B`
succeeds and yields exactly the bytes B with length `length B`. -/
theorem import_export_identity (item : key_item) (ditem outd : data_item)
    (req : ncr_key_data_st) (B : List Nat)
    (hdata : ditem.data = B) (hsize : ditem.data_size = B.length)
    (hmax : B.length ≤ MAX_KEY_SIZE)
    (htype : req.type = KeyType.secret)
    (hkid : req.key_id_size ≤ MAX_KEY_ID_SIZE)
    (hcap : B.length ≤ outd.max_data_size) :
    (key_import_body item ditem req).1 = 0 ∧
    (key_export_body (key_import_body item ditem req).2 outd).1 = 0 ∧
    (key_export_body (key_import_body item ditem req).2 outd).2.data = B ∧
    (key_export_body (key_import_body item ditem req).2 outd).2.data_size = B.length := by
  obtain ⟨h1, h2, h3, h4⟩ :=
    key_import_body_secret_success item ditem req htype hkid (by rw [hsize]; exact hmax)
  have hdB : ditem.data.take ditem.data_size = B := by
    rw [hdata, hsize]
    exact List.take_length B
  rw [hdB] at h3
  have hexp := key_export_body_secret_success_eq (key_import_body item ditem req).2 outd h2
    (by rw [h4, hsize]; exact hcap)
  refine ⟨h1, ?_, ?_, ?_⟩
  · rw [hexp]
  · rw [hexp]
    simp only
    rw [h3, h4, hsize]
    exact List.take_length B
  · rw [hexp]
    simp only
    rw [h4, hsize]

/-- Witness for C5 at the concrete bytes `[9, 9]`. -/
theorem import_export_identity_witness :
    (key_import_body sampleKey sampleDitem
      { key := 1, data := 7, type := KeyType.secret, algorithm := Algorithm.aes_cbc, flags := 0, key_id := [], key_id_size := 0 }).1 = 0 ∧
    (key_export_body (key_import_body sampleKey sampleDitem
      { key := 1, data := 7, type := KeyType.secret, algorithm := Algorithm.aes_cbc, flags := 0, key_id := [], key_id_size := 0 }).2
      { desc := 8, data := [], data_size := 0, max_data_size := 2, flags := 0 }).1 = 0 ∧
    (key_export_body (key_import_body sampleKey sampleDitem
      { key := 1, data := 7, type := KeyType.secret, algorithm := Algorithm.aes_cbc, flags := 0, key_id := [], key_id_size := 0 }).2
      { desc := 8, data := [], data_size := 0, max_data_size := 2, flags := 0 }).2.data = [9, 9] ∧
    (key_export_body (key_import_body sampleKey sampleDitem
      { key := 1, data := 7, type := KeyType.secret, algorithm := Algorithm.aes_cbc, flags := 0, key_id := [], key_id_size := 0 }).2
      { desc := 8, data := [], data_size := 0, max_data_size := 2, flags := 0 }).2.data_size = List.length [9, 9] :=
  import_export_identity sampleKey sampleDitem
    { desc := 8, data := [], data_size := 0, max_data_size := 2, flags := 0 }
    { key := 1, data := 7, type := KeyType.secret, algorithm := Algorithm.aes_cbc, flags := 0, key_id := [], key_id_size := 0 }
    [9, 9] (by decide) (by decide) (by decide) (by decide) (by decide) (by decide)

/-- Unfolding lemma for `set_item` on a nonempty list. -/
theorem set_item_cons (x : key_item) (xs : List key_item) (d : Nat) (v : key_item) :
    set_item (x :: xs) d v = if x.desc = d then v :: xs else x :: set_item xs d v := rfl

/-- A successful lookup returns an item carrying the requested
descriptor. -/
theorem ncr_key_item_get_desc {lst : List key_item} {d : Nat} {item : key_item}
    (h : ncr_key_item_get lst d = some item) : item.desc = d := by
  unfold ncr_key_item_get at h
  have := List.find?_some h
  simpa using this

/-- After replacing the found item by a value with the same
descriptor, lookup of that descriptor returns the replacement. -/
theorem ncr_key_item_get_set_item (lst : List key_item) (d : Nat) (v item : key_item)
    (h : ncr_key_item_get lst d = some item) (hv : v.desc = d) :
    ncr_key_item_get (set_item lst d v) d = some v := by
  induction lst with
  | nil => simp [ncr_key_item_get] at h
  | cons x xs ih =>
    rw [set_item_cons]
    by_cases hx : x.desc = d
    · rw [if_pos hx]
      unfold ncr_key_item_get
      exact List.find?_cons_of_pos xs (by simp [hv])
    · rw [if_neg hx]
      unfold ncr_key_item_get at h ⊢
      rw [List.find?_cons_of_neg _ (by simp [hx])] at h
      rw [List.find?_cons_of_neg _ (by simp [hx])]
      exact ih h

/-- C1 counterexample: on a fresh item, generate with the Secret
algorithm AES-ECB and 128 exportable bits succeeds, but info then
reports algorithm AES-CBC — the fixed tag the source stores — not the
algorithm passed to generate. -/
theorem generate_does_not_store_requested_algorithm :
    (ncr_key_generate [sampleKey]
      { desc := 1, algorithm := Algorithm.aes_ecb, keyflags := NCR_KEY_FLAG_EXPORTABLE, bits := 128 }
      (fun _ => 0) (fun _ => 0)).1 = 0 ∧
    ncr_key_info (ncr_key_generate [sampleKey]
      { desc := 1, algorithm := Algorithm.aes_ecb, keyflags := NCR_KEY_FLAG_EXPORTABLE, bits := 128 }
      (fun _ => 0) (fun _ => 0)).2 1 =
      some { flags := NCR_KEY_FLAG_EXPORTABLE, type := KeyType.secret, algorithm := Algorithm.aes_cbc } ∧
    Algorithm.aes_cbc ≠ Algorithm.aes_ecb := by decide

/-- C1 amended: for a live handle and an algorithm the catalog
classifies Secret, generate with 128 exportable bits succeeds and a
subsequent info reports classification Secret, flags Exportable, and
algorithm `NCR_ALG_AES_CBC` — the fixed tag stored by generate,
regardless of the algorithm passed in. -/
theorem generate_then_info_fields (lst : List key_item) (item : key_item) (H : Nat)
    (A : Algorithm) (rndk rndi : Nat → Nat)
    (hfound : ncr_key_item_get lst H = some item)
    (hsec : ncr_algorithm_to_key_type A = KeyType.secret) :
    (ncr_key_generate lst { desc := H, algorithm := A, keyflags := NCR_KEY_FLAG_EXPORTABLE, bits := 128 } rndk rndi).1 = 0 ∧
    ncr_key_info (ncr_key_generate lst { desc := H, algorithm := A, keyflags := NCR_KEY_FLAG_EXPORTABLE, bits := 128 } rndk rndi).2 H =
      some { flags := NCR_KEY_FLAG_EXPORTABLE, type := KeyType.secret, algorithm := NCR_ALG_AES_CBC } := by
  unfold ncr_key_generate
  rw [hfound]
  dsimp only
  rw [key_generate_body_success_eq item
    { desc := H, algorithm := A, keyflags := NCR_KEY_FLAG_EXPORTABLE, bits := 128 }
    rndk rndi hsec (by simp) (by norm_num [MAX_KEY_SIZE])]
  refine ⟨rfl, ?_⟩
  unfold ncr_key_info
  dsimp only
  have hset := ncr_key_item_get_set_item lst H
    { item with type := KeyType.secret, flags := NCR_KEY_FLAG_EXPORTABLE, algorithm := NCR_ALG_AES_CBC, key_id := (List.range 5).map rndi, key_id_size := 5, secret_data := (List.range (128 / 8)).map rndk, secret_size := 128 / 8 }
    item hfound (by have h2 := ncr_key_item_get_desc hfound; exact h2)
  rw [hset]

/-- Witness for the amended C1 claim at a concrete one-item registry and
the Secret algorithm AES-ECB. -/
theorem generate_then_info_fields_witness :
    (ncr_key_generate [sampleKey]
      { desc := 1, algorithm := Algorithm.aes_ecb, keyflags := NCR_KEY_FLAG_EXPORTABLE, bits := 128 }
      (fun _ => 7) (fun _ => 8)).1 = 0 ∧
    ncr_key_info (ncr_key_generate [sampleKey]
      { desc := 1, algorithm := Algorithm.aes_ecb, keyflags := NCR_KEY_FLAG_EXPORTABLE, bits := 128 }
      (fun _ => 7) (fun _ => 8)).2 1 =
      some { flags := NCR_KEY_FLAG_EXPORTABLE, type := KeyType.secret, algorithm := NCR_ALG_AES_CBC } :=
  generate_then_info_fields [sampleKey] sampleKey 1 Algorithm.aes_ecb
    (fun _ => 7) (fun _ => 8) (by decide) (by decide)

/-- C3: the Resource Limiter pairing leaks on the internal failure
path of `ncr_key_init` itself: when the limiter admits the owner but the item
allocation then fails, the call returns `-ENOMEM` with the per-owner
counter left incremented and no item added whose eventual release
could decrement it. -/
theorem init_kmalloc_failure_leaks_limiter_slot (filp : Nat) (st : registry_st)
    (hok : st.limits.count filp < st.limits.max_per_owner) :
    (ncr_key_init filp false st).1 = -ENOMEM ∧
    (ncr_key_init filp false st).2.1.limits.count filp = st.limits.count filp + 1 ∧
    (ncr_key_init filp false st).2.1.lst = st.lst := by
  have hlt : ¬ st.limits.count filp ≥ st.limits.max_per_owner := not_le.mpr hok
  unfold ncr_key_init ncr_limits_add_and_check
  simp [hlt]

/-- Witness for C3 at a concrete registry whose owner is far below its
limit. -/
theorem init_kmalloc_failure_leaks_limiter_slot_witness :
    (ncr_key_init 0 false sampleRegistry).1 = -ENOMEM ∧
    (ncr_key_init 0 false sampleRegistry).2.1.limits.count 0 = sampleRegistry.limits.count 0 + 1 ∧
    (ncr_key_init 0 false sampleRegistry).2.1.lst = sampleRegistry.lst :=
  init_kmalloc_failure_leaks_limiter_slot 0 sampleRegistry (by decide)

/-- The fold in `_ncr_key_get_new_desc` dominates its initial value. -/
theorem le_foldl_max_desc (lst : List key_item) (a : Nat) :
    a ≤ lst.foldl (fun mx item => max mx item.desc) a := by
  induction lst generalizing a with
  | nil => exact Nat.le_refl a
  | cons x xs ih =>
    rw [List.foldl_cons]
    exact Nat.le_trans (Nat.le_max_left a x.desc) (ih (max a x.desc))

/-- The fold in `_ncr_key_get_new_desc` dominates the descriptor of
every member. -/
theorem desc_le_foldl_max (lst : List key_item) (item : key_item) :
    ∀ a : Nat, item ∈ lst → item.desc ≤ lst.foldl (fun mx item => max mx item.desc) a := by
  induction lst with
  | nil =>
    intro a h
    cases h
  | cons x xs ih =>
    intro a hmem
    rw [List.foldl_cons]
    rcases List.mem_cons.mp hmem with h1 | h2
    · rw [h1]
      exact Nat.le_trans (Nat.le_max_right a x.desc) (le_foldl_max_desc xs (max a x.desc))
    · exact ih (max a x.desc) h2

/-- The fold in `_ncr_key_get_new_desc` is its initial value or the
descriptor of some member. -/
theorem foldl_max_eq_init_or_mem (lst : List key_item) :
    ∀ a : Nat, lst.foldl (fun mx item => max mx item.desc) a = a ∨
      ∃ item ∈ lst, lst.foldl (fun mx item => max mx item.desc) a = item.desc := by
  induction lst with
  | nil =>
    intro a
    exact Or.inl rfl
  | cons x xs ih =>
    intro a
    rw [List.foldl_cons]
    rcases ih (max a x.desc) with h | ⟨it, hmem, heq⟩
    · rw [h]
      rcases max_choice a x.desc with h2 | h2
      · exact Or.inl h2
      · exact Or.inr ⟨x, List.mem_cons_self x xs, h2⟩
    · exact Or.inr ⟨it, List.mem_cons_of_mem x hmem, heq⟩

/-- Every live descriptor is strictly below the next fresh one. -/
theorem desc_lt_new_desc (lst : List key_item) (item : key_item) (hmem : item ∈ lst) :
    item.desc < _ncr_key_get_new_desc lst :=
  Nat.lt_succ_of_le (desc_le_foldl_max lst item 0 hmem)

/-- On a nonempty list the fresh descriptor is exactly one more than
the descriptor of some member (with `desc_lt_new_desc`: max+1). -/
theorem new_desc_eq_max_succ (lst : List key_item) (hne : lst ≠ []) :
    ∃ item ∈ lst, _ncr_key_get_new_desc lst = item.desc + 1 := by
  unfold _ncr_key_get_new_desc
  rcases foldl_max_eq_init_or_mem lst 0 with h | ⟨it, hmem, heq⟩
  · obtain ⟨x, xs, rfl⟩ : ∃ y ys, lst = y :: ys := by
      cases lst with
      | nil => exact absurd rfl hne
      | cons y ys => exact ⟨y, ys, rfl⟩
    have hx : x.desc ≤ 0 := by
      have h2 := desc_le_foldl_max (x :: xs) x 0 (List.mem_cons_self x xs)
      rw [h] at h2
      exact h2
    refine ⟨x, List.mem_cons_self x xs, ?_⟩
    rw [h, Nat.le_zero.mp hx]
  · exact ⟨it, hmem, by rw [heq]⟩

/-- Computation of `ncr_key_init` on its success path. -/
theorem ncr_key_init_success_eq (filp : Nat) (st : registry_st)
    (hok : st.limits.count filp < st.limits.max_per_owner) :
    ncr_key_init filp true st =
      (0, { limits := { st.limits with count := fun o => if o = filp then st.limits.count o + 1 else st.limits.count o }, lst := new_key_item filp st.lst :: st.lst }, some (_ncr_key_get_new_desc st.lst)) := by
  have hlt : ¬ st.limits.count filp ≥ st.limits.max_per_owner := not_le.mpr hok
  unfold ncr_key_init ncr_limits_add_and_check
  simp [hlt, new_key_item]

/-- One successful allocation preserves distinctness of the live
descriptors. -/
theorem init_preserves_nodup (filp : Nat) (lst : List key_item)
    (hnd : (lst.map key_item.desc).Nodup) :
    ((new_key_item filp lst :: lst).map key_item.desc).Nodup := by
  rw [List.map_cons]
  refine List.nodup_cons.mpr ⟨?_, hnd⟩
  intro hmem
  rcases List.mem_map.mp hmem with ⟨it, hit, heq⟩
  exact Nat.ne_of_lt (desc_lt_new_desc lst it hit) heq

/-- Any number of successful allocations preserves distinctness of the
live descriptors, as long as the limiter keeps admitting the owner. -/
theorem alloc_n_nodup (filp : Nat) :
    ∀ (n : Nat) (st : registry_st),
      st.limits.count filp + n ≤ st.limits.max_per_owner →
      (st.lst.map key_item.desc).Nodup →
      ((alloc_n filp n st).lst.map key_item.desc).Nodup := by
  intro n
  induction n with
  | zero =>
    intro st _ hnd
    exact hnd
  | succ n ih =>
    intro st hadm hnd
    have hok : st.limits.count filp < st.limits.max_per_owner := by omega
    unfold alloc_n
    rw [ncr_key_init_success_eq filp st hok]
    apply ih
    · dsimp only
      rw [if_pos rfl]
      omega
    · exact init_preserves_nodup filp st.lst hnd

/-- C9: a successful allocate returns the handle
`max(existing handles) + 1` — `1` on an empty registry — strictly
greater than every live handle; distinctness of the live handles is
preserved, and any number N of allocations on one registry keeps all
live handles pairwise distinct. -/
theorem init_assigns_max_plus_one (filp n : Nat) (st : registry_st)
    (hok : st.limits.count filp < st.limits.max_per_owner) :
    (ncr_key_init filp true st).1 = 0 ∧
    (ncr_key_init filp true st).2.2 = some (_ncr_key_get_new_desc st.lst) ∧
    (st.lst = [] → (ncr_key_init filp true st).2.2 = some 1) ∧
    (∀ item ∈ st.lst, item.desc < _ncr_key_get_new_desc st.lst) ∧
    (st.lst ≠ [] → ∃ item ∈ st.lst, _ncr_key_get_new_desc st.lst = item.desc + 1) ∧
    ((st.lst.map key_item.desc).Nodup →
      ((ncr_key_init filp true st).2.1.lst.map key_item.desc).Nodup) ∧
    (st.limits.count filp + n ≤ st.limits.max_per_owner →
      (st.lst.map key_item.desc).Nodup →
      ((alloc_n filp n st).lst.map key_item.desc).Nodup) := by
  rw [ncr_key_init_success_eq filp st hok]
  refine ⟨rfl, rfl, ?_, ?_, ?_, ?_, ?_⟩
  · intro he
    rw [he]
    rfl
  · exact fun item hmem => desc_lt_new_desc st.lst item hmem
  · exact new_desc_eq_max_succ st.lst
  · intro hnd
    exact init_preserves_nodup filp st.lst hnd
  · exact fun hadm hnd => alloc_n_nodup filp n st hadm hnd

/-- Witness for C9 at a concrete registry holding one item with
descriptor 1: the next allocation succeeds returning handle 2, and two
further allocations keep the live handles pairwise distinct. -/
theorem init_assigns_max_plus_one_witness :
    sampleRegistry.limits.count 0 < sampleRegistry.limits.max_per_owner ∧
    (ncr_key_init 0 true sampleRegistry).1 = 0 ∧
    (ncr_key_init 0 true sampleRegistry).2.2 = some 2 ∧
    ((alloc_n 0 2 sampleRegistry).lst.map key_item.desc).Nodup :=
  ⟨by decide,
   (init_assigns_max_plus_one 0 2 sampleRegistry (by decide)).1,
   by
     rw [(init_assigns_max_plus_one 0 2 sampleRegistry (by decide)).2.1]
     decide,
   (init_assigns_max_plus_one 0 2 sampleRegistry
     (by decide)).2.2.2.2.2.2 (by decide) (by decide)⟩

end NcrKey
